import Mathlib

/-!
Shallow embedding of `sociallunch_bot.py`, the core decision and workflow
engine of an automatic meal-ordering bot: calendar scanning
(`obtener_dias_disponibles`), location selection (`seleccionar_ubicacion`),
category-item selection (`seleccionar_item_de_categoria`), order
confirmation (`confirmar_pedido`), the per-day pipeline (`procesar_dia`)
and the run driver (`ejecutar_agente`).

The UI automation driver (Playwright) is abstracted: each embedded function
takes an explicit environment value describing what the driver would
observe or report (element texts, visibility, whether a given driver call
raises), and returns the value the Python function returns, plus — for the
pipeline — a trace of the externally visible actions it performed.
-/

/-- A calendar day cell as surfaced by the first matching CSS selector in
`obtener_dias_disponibles`. `texto` is the cell's inner text, `visible` the
result of `is_visible()`, `style` the computed background colour, and
`readable` is false when reading the cell raises (the inner `try` skips it).
The four status flags are the presentation state the specification's data
model attributes to a day; the Python code can observe them but, as the
theorems below settle, never reads them. -/
structure DayCell where
  texto : String
  visible : Bool
  readable : Bool
  style : String
  isFuture : Bool
  isPast : Bool
  hasNoService : Bool
  hasExistingOrder : Bool
deriving DecidableEq

/-- One entry of the `dias_disponibles` list built by
`obtener_dias_disponibles`: the dict `{"elemento": elem, "numero": int(texto), "style": style}`. -/
structure Dia where
  elemento : DayCell
  numero : Nat
  style : String
deriving DecidableEq

/-- Modelled from the spec (§3, refinement target for comparison with the
code): eligibility = `isFuture ∧ ¬isPast ∧ ¬hasNoService ∧ ¬hasExistingOrder`. -/
def eligibleSpec (c : DayCell) : Bool :=
  c.isFuture && !c.isPast && !c.hasNoService && !c.hasExistingOrder

/-- Decimal value of a digit-character list, most significant first. -/
def digitsToNat (acc : Nat) : List Char → Nat
  | [] => acc
  | c :: t => digitsToNat (acc * 10 + (c.toNat - 48)) t

/-- The test `texto.isdigit() and 1 <= int(texto) <= 31` of line 171:
`some n` when the text is a non-empty digit string of value `n`, else
`none`. -/
def parseDayText (s : String) : Option Nat :=
  if !s.data.isEmpty && s.data.all Char.isDigit then some (digitsToNat 0 s.data)
  else none

/-- The extraction loop of `obtener_dias_disponibles` (lines 163-186): for
each element of the first selector that returned elements, keep it when its
inner text is a digit string whose value lies in `1..31` and the element is
visible; reading failures (`except: continue`) drop the cell. -/
def dias_disponibles (cells : List DayCell) : List Dia :=
  cells.filterMap (fun c =>
    if !c.readable then none
    else match parseDayText c.texto with
      | some n => if 1 ≤ n && n ≤ 31 && c.visible then some ⟨c, n, c.style⟩ else none
      | none => none)

/-- The `dias_unicos` dict build (lines 188-193): first occurrence of each
day number wins, insertion order preserved. `seen` is the set of keys
already in the dict. -/
def dedupFirst : List Dia → List Nat → List Dia
  | [], _ => []
  | d :: rest, seen =>
    if d.numero ∈ seen then dedupFirst rest seen
    else d :: dedupFirst rest (d.numero :: seen)

/-- Ordering used by `sorted(dias_unicos.values(), key=lambda x: x["numero"])`. -/
def leDia (a b : Dia) : Prop := a.numero ≤ b.numero

instance : DecidableRel leDia := fun a b => Nat.decLe a.numero b.numero

instance : IsTotal Dia leDia := ⟨fun a b => Nat.le_total a.numero b.numero⟩

instance : IsTrans Dia leDia := ⟨fun _ _ _ hab hbc => Nat.le_trans hab hbc⟩

/-- `obtener_dias_disponibles` (lines 143-198): extract candidate day
entries, deduplicate by day number (first wins), sort ascending by number. -/
def obtener_dias_disponibles (cells : List DayCell) : List Dia :=
  List.insertionSort leDia (dedupFirst (dias_disponibles cells) [])

/-- A menu item card in a category page: its description text and whether
it is visible. -/
structure MenuItem where
  descripcion : String
  visible : Bool
deriving DecidableEq

/-- Character-list prefix test (avoids case analysis on `String` internals). -/
def isPrefixL : List Char → List Char → Bool
  | [], _ => true
  | _ :: _, [] => false
  | a :: as, b :: bs => a == b && isPrefixL as bs

/-- Substring test on character lists: `containsSub needle hay` is true iff
`needle` occurs contiguously inside `hay`. -/
def containsSub (needle : List Char) : List Char → Bool
  | [] => isPrefixL needle []
  | c :: t => isPrefixL needle (c :: t) || containsSub needle t

/-- Case-insensitive containment, the meaning of Playwright's
`text=/keyword/i` locator for a plain-word keyword: the lower-cased
keyword occurs in the lower-cased item text. -/
def matchesKeyword (item kw : String) : Bool :=
  containsSub (kw.data.map Char.toLower) (item.data.map Char.toLower)

/-- The `items_encontrados` list of `seleccionar_item_de_categoria`
(lines 252-263): for each keyword in order, every visible candidate whose
text matches that keyword is appended. A candidate matching several
keywords therefore appears once per matching keyword. -/
def items_encontrados (candidates : List MenuItem) (keywords : List String) : List MenuItem :=
  (keywords.map (fun kw =>
    candidates.filter (fun it => it.visible && matchesKeyword it.descripcion kw))).flatten

/-- Outcome of one category selection, the spec's `SelectionOutcome`. -/
inductive SelectionOutcome where
  | Matched (item : MenuItem)
  | FallbackFirst (item : MenuItem)
  | Unavailable
deriving DecidableEq

/-- The selection core of `seleccionar_item_de_categoria` (lines 252-301):
if the keyword-match list is non-empty, `random.choice` picks one of its
entries (the injected `rand` indexes it modulo its length); otherwise the
fallback `page.click('text="AGREGAR"')` hits the add button of the first
listed candidate when one exists, and times out (`Unavailable`) when the
category has no candidates at all. -/
def seleccionar (candidates : List MenuItem) (keywords : List String) (rand : Nat) :
    SelectionOutcome :=
  let L := items_encontrados candidates keywords
  if L.isEmpty then
    match candidates with
    | [] => SelectionOutcome.Unavailable
    | c :: _ => SelectionOutcome.FallbackFirst c
  else
    SelectionOutcome.Matched (L.getD (rand % L.length) ⟨"", true⟩)

/-- What happens for one selector tried by the loop of
`seleccionar_ubicacion` (lines 219-227): the located element is visible and
gets clicked, or it is not visible, or the attempt raises (caught by the
inner `except: continue`). -/
inductive SelAttempt where
  | visibleClick
  | notVisible
  | raises
deriving DecidableEq

/-- The selector loop of `seleccionar_ubicacion`: the first visible element
is clicked and `True` returned; a raising or non-visible attempt falls
through to the next selector; an exhausted loop prints a warning and
returns `True` as well. -/
def seleccionar_ubicacion_loop : List SelAttempt → Bool
  | [] => true
  | SelAttempt.visibleClick :: _ => true
  | SelAttempt.notVisible :: rest => seleccionar_ubicacion_loop rest
  | SelAttempt.raises :: rest => seleccionar_ubicacion_loop rest

/-- `seleccionar_ubicacion` (lines 201-234): the loop above wrapped in an
outer `try` whose handler also returns `True` ("Puede que no siempre
aparezca"). `outerRaises` models an exception escaping the loop itself. -/
def seleccionar_ubicacion (attempts : List SelAttempt) (outerRaises : Bool) : Bool :=
  if outerRaises then true
  else seleccionar_ubicacion_loop attempts

/-- `confirmar_pedido` (lines 311-329): click `CONFIRMAR`, on failure retry
with a button selector, on a second failure print a warning and return
`False`. Both failures are swallowed, so the function never raises. -/
def confirmar_pedido (click1Ok click2Ok : Bool) : Bool :=
  if click1Ok then true
  else if click2Ok then true
  else false

/-- Externally visible actions a day's processing can perform, in order. -/
inductive BotAction where
  | clickDia
  | selUbicacion (ok : Bool)
  | selCategoria (categoria : String) (ok : Bool)
  | confirmar (ok : Bool)
  | clickVolver
  | goBack
  | gotoRootFallback
  | recoverRoot
deriving DecidableEq

/-- Environment of one `procesar_dia` call: which driver operations succeed
and what the page shows. `clickDiaOk` — clicking the day cell;
`menuWaitOk` — waiting for the menu and running the no-service check;
`noService` — the page shows `DÍA SIN SERVICIO`; `svcVolverOk` /
`svcGoBackOk` — the `VOLVER` click resp. `go_back()` in the no-service
branch; `ensaladaOk`/`postreOk`/`bebidaOk` — the boolean results of the
three category selections (which never raise); `confirm1`/`confirm2` — the
two confirmation clicks; `retVolverOk`/`retGoBackOk`/`retGotoOk` — the
three-stage return to the calendar. -/
structure DayEnv where
  numero : Nat
  clickDiaOk : Bool
  ubiAttempts : List SelAttempt
  ubiOuterRaises : Bool
  menuWaitOk : Bool
  noService : Bool
  svcVolverOk : Bool
  svcGoBackOk : Bool
  ensaladaOk : Bool
  postreOk : Bool
  bebidaOk : Bool
  confirm1 : Bool
  confirm2 : Bool
  retVolverOk : Bool
  retGoBackOk : Bool
  retGotoOk : Bool
deriving DecidableEq

/-- `procesar_dia` (lines 332-393): returns the boolean the Python function
returns together with the trace of performed actions. Dry-run mode returns
`True` immediately. Otherwise the body runs under a `try` whose handler
navigates back to the root URL (`recoverRoot`) and returns `False`. The
results of `seleccionar_ubicacion`, of the three
`seleccionar_item_de_categoria` calls and of `confirmar_pedido` are
recorded in the trace but never influence the day's result, exactly as the
Python code discards them. -/
def procesar_dia (env : DayEnv) (dry_run : Bool) : Bool × List BotAction :=
  if dry_run then (true, [])
  else if !env.clickDiaOk then (false, [BotAction.recoverRoot])
  else
    let t2 : List BotAction :=
      [BotAction.clickDia,
       BotAction.selUbicacion (seleccionar_ubicacion env.ubiAttempts env.ubiOuterRaises)]
    if !env.menuWaitOk then (false, t2 ++ [BotAction.recoverRoot])
    else if env.noService then
      if env.svcVolverOk then (true, t2 ++ [BotAction.clickVolver])
      else if env.svcGoBackOk then (true, t2 ++ [BotAction.goBack])
      else (false, t2 ++ [BotAction.recoverRoot])
    else
      let t3 : List BotAction := t2 ++
        [BotAction.selCategoria "ENSALADAS" env.ensaladaOk,
         BotAction.selCategoria "POSTRES" env.postreOk,
         BotAction.selCategoria "BEBIDAS" env.bebidaOk,
         BotAction.confirmar (confirmar_pedido env.confirm1 env.confirm2)]
      if env.retVolverOk then (true, t3 ++ [BotAction.clickVolver])
      else if env.retGoBackOk then (true, t3 ++ [BotAction.goBack])
      else if env.retGotoOk then (true, t3 ++ [BotAction.gotoRootFallback])
      else (false, t3 ++ [BotAction.recoverRoot])

/-- True exactly when the body of `procesar_dia`'s `try` raises, reaching
the outer handler: the day click fails, the menu wait fails, or every stage
of the relevant return-to-calendar chain fails. -/
def dayRaises (env : DayEnv) : Bool :=
  !env.clickDiaOk || !env.menuWaitOk ||
  (env.noService && !env.svcVolverOk && !env.svcGoBackOk) ||
  (!env.noService && !env.retVolverOk && !env.retGoBackOk && !env.retGotoOk)

/-- The per-day result booleans of the processing loop (lines 443-448). -/
def runResults (days : List DayEnv) (dry_run : Bool) : List Bool :=
  days.map (fun d => (procesar_dia d dry_run).1)

/-- The run summary counters `exitos`/`errores` (lines 440-447). -/
def resumen (days : List DayEnv) (dry_run : Bool) : Nat × Nat :=
  ((runResults days dry_run).countP (fun b => b = true),
   (runResults days dry_run).countP (fun b => b = false))

/-- `ejecutar_agente` (lines 396-465) reduced to its exit code: `1` when
credentials are missing (`get_config` calls `sys.exit(1)`), when an
unrecovered exception reaches the run-level handler (`runExc`), or when
login fails; `0` when no days were found (`sys.exit(0)`); otherwise `1`
iff some day's processing returned `False`. -/
def ejecutar_agente (credsPresent authOk runExc : Bool) (days : List DayEnv)
    (dry_run : Bool) : Nat :=
  if !credsPresent then 1
  else if runExc then 1
  else if !authOk then 1
  else if days.isEmpty then 0
  else if 0 < (resumen days dry_run).2 then 1
  else 0

/-- A day on which every driver interaction succeeds and the order is
confirmed. -/
def exampleGoodDay : DayEnv :=
  { numero := 5, clickDiaOk := true, ubiAttempts := [SelAttempt.visibleClick],
    ubiOuterRaises := false, menuWaitOk := true, noService := false,
    svcVolverOk := true, svcGoBackOk := true, ensaladaOk := true,
    postreOk := true, bebidaOk := true, confirm1 := true, confirm2 := true,
    retVolverOk := true, retGoBackOk := true, retGotoOk := true }

/-- A day whose cell click raises, reaching the day-level handler. -/
def exampleFailDay : DayEnv := { exampleGoodDay with numero := 19, clickDiaOk := false }

/-- A day on which both confirmation clicks fail, so `confirmar_pedido`
returns `False`. -/
def confirmFailDay : DayEnv :=
  { exampleGoodDay with numero := 19, confirm1 := false, confirm2 := false }

/-- A day whose page shows `DÍA SIN SERVICIO`. -/
def noServiceDay : DayEnv := { exampleGoodDay with numero := 12, noService := true }

/-- Concrete calendar cells: day 12, day 5, and a second rendering of day 5
with a different style (the surface exposing the same logical day twice). -/
def exCell5a : DayCell := ⟨"5", true, true, "g", true, false, false, false⟩

/-- Duplicate rendering of day 5, distinguishable by its style. -/
def exCell5b : DayCell := ⟨"5", true, true, "h", true, false, false, false⟩

/-- Cell for day 12. -/
def exCell12 : DayCell := ⟨"12", true, true, "g", true, false, false, false⟩

/-- A small calendar surface with a duplicated day and unsorted order. -/
def exCells : List DayCell := [exCell12, exCell5a, exCell5b]

/-- The entry the scanner should retain for day 5 of `exCells`. -/
def exDia5 : Dia := ⟨exCell5a, 5, "g"⟩

/-- A visible numbered cell whose day already carries an existing order
(and is also in the past per its flags): ineligible under the spec's
predicate, yet retained by the code's text-and-visibility test. -/
def orderPlacedCell : DayCell := ⟨"5", true, true, "", true, false, false, true⟩

/-- Menu item whose text matches two of the drink keywords. -/
def itemCocaZero : MenuItem := ⟨"coca zero", true⟩

/-- Menu item whose text matches exactly one of the drink keywords. -/
def itemPepsiLight : MenuItem := ⟨"pepsi light", true⟩

/-- Candidates for the uniformity counterexample. -/
def cexCandidates : List MenuItem := [itemCocaZero, itemPepsiLight]

/-- Keywords for the uniformity counterexample: `itemCocaZero` matches two
of them, `itemPepsiLight` one. -/
def cexKeywords : List String := ["coca", "zero", "pepsi"]

/-- A salad item matching the configured salad keyword. -/
def witSalad : MenuItem := ⟨"Ensalada Caesar", true⟩

/-- An item matching no keyword, used to exercise the fallback. -/
def tortaItem : MenuItem := ⟨"torta", true⟩

/-! ### Helper lemmas -/

/-- The selector loop of `seleccionar_ubicacion` returns `True` on every
input. -/
theorem seleccionar_ubicacion_loop_true :
    ∀ attempts, seleccionar_ubicacion_loop attempts = true
  | [] => rfl
  | SelAttempt.visibleClick :: _ => rfl
  | SelAttempt.notVisible :: rest => seleccionar_ubicacion_loop_true rest
  | SelAttempt.raises :: rest => seleccionar_ubicacion_loop_true rest

/-- The day result of `procesar_dia` outside dry-run mode is `True` exactly
when no exception reaches the day-level handler. -/
theorem procesar_dia_fst (env : DayEnv) : (procesar_dia env false).1 = !dayRaises env := by
  obtain ⟨n, cd, ua, uo, mw, ns, sv, sg, e1, p1, b1, c1, c2, rv, rg, rgo⟩ := env
  cases cd <;> cases mw <;> cases ns <;> cases sv <;> cases sg <;> cases rv <;> cases rg <;>
    cases rgo <;> rfl

/-- Whenever the day-level handler runs, the recovery navigation to the
root URL appears in the trace. -/
theorem procesar_dia_recover (env : DayEnv) (h : dayRaises env = true) :
    BotAction.recoverRoot ∈ (procesar_dia env false).2 := by
  obtain ⟨n, cd, ua, uo, mw, ns, sv, sg, e1, p1, b1, c1, c2, rv, rg, rgo⟩ := env
  cases cd <;> cases mw <;> cases ns <;> cases sv <;> cases sg <;> cases rv <;> cases rg <;>
    cases rgo <;> simp_all [procesar_dia, dayRaises]

/-- A category with no candidates yields an empty keyword-match list. -/
theorem items_encontrados_nil (keywords : List String) :
    items_encontrados [] keywords = [] := by
  induction keywords with
  | nil => rfl
  | cons kw rest ih => simp [items_encontrados] at ih ⊢

/-- Indexing a list by every position in order reproduces the list. -/
theorem map_getD_range (l : List MenuItem) (d : MenuItem) :
    (List.range l.length).map (fun j => l.getD j d) = l := by
  induction l with
  | nil => rfl
  | cons a t ih =>
    rw [List.length_cons, List.range_succ_eq_map, List.map_cons, List.map_map]
    have h : ((fun j => (a :: t).getD j d) ∘ Nat.succ) = fun j => t.getD j d := by
      funext j
      simp
    rw [h, ih, List.getD_cons_zero]

/-! ### Claim theorems -/

/-- C6: In dry-run mode the per-day pipeline performs no action at all — no
location, category or confirmation step appears in the trace — and the
day's outcome is success, for every environment. -/
theorem dry_run_pure (env : DayEnv) : procesar_dia env true = (true, []) := rfl

/-- C10: the location-selection step returns success on every execution
path — element present and clicked, absent, or raising at any point — and
the day outcome of `procesar_dia` does not depend on the location
environment, so location selection can never mark a day failed. -/
theorem seleccionar_ubicacion_total (attempts : List SelAttempt) (outerRaises : Bool)
    (env : DayEnv) (a2 : List SelAttempt) (o2 : Bool) :
    seleccionar_ubicacion attempts outerRaises = true
    ∧ (procesar_dia { env with ubiAttempts := a2, ubiOuterRaises := o2 } false).1
        = (procesar_dia env false).1 := by
  constructor
  · cases outerRaises <;> simp [seleccionar_ubicacion, seleccionar_ubicacion_loop_true]
  · rw [procesar_dia_fst, procesar_dia_fst]
    rfl

/-- C5: the exit code of a run is `0` exactly when credentials are present,
no unrecovered run-level exception occurs, authentication succeeds and no
day's processing returned `False` (in particular when there are no days at
all), and `1` otherwise. -/
theorem exit_code_spec (credsPresent authOk runExc : Bool) (days : List DayEnv)
    (dry_run : Bool) :
    ejecutar_agente credsPresent authOk runExc days dry_run
      = if credsPresent = true ∧ runExc = false ∧ authOk = true
           ∧ (resumen days dry_run).2 = 0
        then 0 else 1 := by
  cases credsPresent <;> cases runExc <;> cases authOk <;>
    simp [ejecutar_agente] <;>
    cases days with
    | nil => simp [resumen, runResults]
    | cons d ds =>
      by_cases hr : (resumen (d :: ds) dry_run).2 = 0 <;>
        simp [hr, List.isEmpty, Nat.pos_of_ne_zero]

/-- C8: with no candidates the selection is `Unavailable`; with candidates
but an empty keyword-match list it deterministically falls back to the
first candidate in listing order. -/
theorem seleccionar_empty_and_fallback (c : MenuItem) (cs : List MenuItem)
    (keywords : List String) (rand : Nat)
    (hm : items_encontrados (c :: cs) keywords = []) :
    seleccionar [] keywords rand = SelectionOutcome.Unavailable
    ∧ seleccionar (c :: cs) keywords rand = SelectionOutcome.FallbackFirst c := by
  constructor
  · simp [seleccionar, items_encontrados_nil]
  · simp [seleccionar, hm]

/-- C8 witness: a concrete empty category and a concrete category whose
single candidate matches no keyword. -/
theorem seleccionar_empty_and_fallback_witness :
    seleccionar [] ["ensalada"] 0 = SelectionOutcome.Unavailable
    ∧ seleccionar [tortaItem] ["ensalada"] 0 = SelectionOutcome.FallbackFirst tortaItem :=
  seleccionar_empty_and_fallback tortaItem [] ["ensalada"] 0 (by decide)

/-- C1 counterexample: on a day where both confirmation clicks fail,
`confirmar_pedido` returns `False`, yet `procesar_dia` still returns `True`
— its result is discarded — and a run consisting of that single day exits
with code `0`, not non-zero as the claim states. -/
theorem confirm_failure_cex :
    confirmar_pedido confirmFailDay.confirm1 confirmFailDay.confirm2 = false
    ∧ (procesar_dia confirmFailDay false).1 = true
    ∧ BotAction.confirmar false ∈ (procesar_dia confirmFailDay false).2
    ∧ ejecutar_agente true true false [confirmFailDay] false = 0 := by decide

/-- C1 amended: the Confirm step is invoked and its failure recorded, but
its result never influences the day: a day whose confirmation fails and
whose remaining driver interactions succeed is reported as a success, and a
run of such days exits `0`; the run does continue past the day. -/
theorem confirm_failure_ignored (env : DayEnv)
    (hc : env.clickDiaOk = true) (hm : env.menuWaitOk = true)
    (hn : env.noService = false) (hr : env.retVolverOk = true)
    (hf : confirmar_pedido env.confirm1 env.confirm2 = false) :
    (procesar_dia env false).1 = true
    ∧ BotAction.confirmar false ∈ (procesar_dia env false).2
    ∧ ejecutar_agente true true false [env] false = 0 := by
  have h1 : (procesar_dia env false).1 = true := by
    rw [procesar_dia_fst]
    simp [dayRaises, hc, hm, hn, hr]
  refine ⟨h1, ?_, ?_⟩
  · simp [procesar_dia, hc, hm, hn, hr, hf]
  · simp [ejecutar_agente, resumen, runResults, h1]

/-- C1 witness: the amended statement at the concrete confirmation-failure
day. -/
theorem confirm_failure_ignored_witness :
    (procesar_dia confirmFailDay false).1 = true
    ∧ BotAction.confirmar false ∈ (procesar_dia confirmFailDay false).2
    ∧ ejecutar_agente true true false [confirmFailDay] false = 0 :=
  confirm_failure_ignored confirmFailDay rfl rfl rfl rfl rfl

/-- C3 counterexample: a no-service day yields exactly the same outcome
value as a fully successful day (`True`), and the run summary of a single
no-service day is `(exitos, errores) = (1, 0)` with exit code `0`: the day
is counted in the success counter, there is no distinct `Skipped` count. -/
theorem noservice_counted_success_cex :
    (procesar_dia noServiceDay false).1 = (procesar_dia exampleGoodDay false).1
    ∧ resumen [noServiceDay] false = (1, 0)
    ∧ ejecutar_agente true true false [noServiceDay] false = 0 := by decide

/-- C3 amended: a day flagged as having no service returns to the calendar
(`VOLVER`) without invoking any category selection or confirmation, and is
then recorded as a success (`True`, counted among `exitos`), not as a
distinct `Skipped` outcome. -/
theorem noservice_short_circuit (env : DayEnv)
    (hc : env.clickDiaOk = true) (hm : env.menuWaitOk = true)
    (hn : env.noService = true) (hv : env.svcVolverOk = true) :
    procesar_dia env false
      = (true, [BotAction.clickDia,
                BotAction.selUbicacion (seleccionar_ubicacion env.ubiAttempts env.ubiOuterRaises),
                BotAction.clickVolver])
    ∧ (∀ c ok, BotAction.selCategoria c ok ∉ (procesar_dia env false).2)
    ∧ (∀ ok, BotAction.confirmar ok ∉ (procesar_dia env false).2)
    ∧ resumen [env] false = (1, 0) := by
  have hp : procesar_dia env false
      = (true, [BotAction.clickDia,
                BotAction.selUbicacion (seleccionar_ubicacion env.ubiAttempts env.ubiOuterRaises),
                BotAction.clickVolver]) := by
    simp [procesar_dia, hc, hm, hn, hv]
  refine ⟨hp, ?_, ?_, ?_⟩
  · intro c ok
    rw [hp]
    simp
  · intro ok
    rw [hp]
    simp
  · simp [resumen, runResults, hp]

/-- C3 witness: the amended statement at the concrete no-service day,
instantiated at the salad category and at a failing confirmation action. -/
theorem noservice_short_circuit_witness :
    procesar_dia noServiceDay false
      = (true, [BotAction.clickDia,
                BotAction.selUbicacion
                  (seleccionar_ubicacion noServiceDay.ubiAttempts noServiceDay.ubiOuterRaises),
                BotAction.clickVolver])
    ∧ BotAction.selCategoria "ENSALADAS" true ∉ (procesar_dia noServiceDay false).2
    ∧ BotAction.confirmar false ∉ (procesar_dia noServiceDay false).2
    ∧ resumen [noServiceDay] false = (1, 0) := by
  obtain ⟨h1, h2, h3, h4⟩ := noservice_short_circuit noServiceDay rfl rfl rfl rfl
  exact ⟨h1, h2 "ENSALADAS" true, h3 false, h4⟩

/-- C4: an unexpected failure while processing one day marks exactly that
day as failed and triggers the recovery navigation to the root URL; the
per-day results of a run containing it are the unchanged results of the
other days around a single `False`, and the run exits `1`. -/
theorem day_isolation (pre post : List DayEnv) (e : DayEnv)
    (h : dayRaises e = true) :
    (procesar_dia e false).1 = false
    ∧ BotAction.recoverRoot ∈ (procesar_dia e false).2
    ∧ runResults (pre ++ e :: post) false
        = runResults pre false ++ false :: runResults post false
    ∧ ejecutar_agente true true false (pre ++ e :: post) false = 1 := by
  have hf : (procesar_dia e false).1 = false := by
    rw [procesar_dia_fst, h]
    rfl
  refine ⟨hf, procesar_dia_recover e h, ?_, ?_⟩
  · simp [runResults, hf]
  · have hpos : 0 < (resumen (pre ++ e :: post) false).2 := by
      simp [resumen, runResults, List.countP_append, List.countP_cons, hf]
    simp [ejecutar_agente, hpos]

/-- C4 witness: a three-day run whose middle day raises while the days
around it succeed. -/
theorem day_isolation_witness :
    dayRaises exampleFailDay = true
    ∧ ((procesar_dia exampleFailDay false).1 = false
       ∧ BotAction.recoverRoot ∈ (procesar_dia exampleFailDay false).2
       ∧ runResults ([exampleGoodDay] ++ exampleFailDay :: [exampleGoodDay]) false
           = runResults [exampleGoodDay] false ++ false :: runResults [exampleGoodDay] false
       ∧ ejecutar_agente true true false
           ([exampleGoodDay] ++ exampleFailDay :: [exampleGoodDay]) false = 1) :=
  ⟨by decide, day_isolation [exampleGoodDay] [exampleGoodDay] exampleFailDay (by decide)⟩

/-- C2 counterexample: a visible numbered cell that is ineligible under the
spec's flag predicate (it carries an existing order) is nevertheless
produced by the scanner — the code filters on text and visibility only. -/
theorem scanner_ignores_flags_cex :
    obtener_dias_disponibles [orderPlacedCell] = [⟨orderPlacedCell, 5, ""⟩]
    ∧ eligibleSpec orderPlacedCell = false := ⟨rfl, rfl⟩

/-- C2 amended: an entry is produced by the extraction pass of the scanner
exactly when its cell is readable, its inner text parses as a day number in
`1..31`, and the cell is visible; none of the four status flags takes part
in the criterion. -/
theorem dias_disponibles_criterion (cells : List DayCell) (d : Dia) :
    d ∈ dias_disponibles cells
      ↔ d.elemento ∈ cells ∧ d.elemento.readable = true
        ∧ parseDayText d.elemento.texto = some d.numero
        ∧ 1 ≤ d.numero ∧ d.numero ≤ 31 ∧ d.elemento.visible = true
        ∧ d.style = d.elemento.style := by
  obtain ⟨e, n, s⟩ := d
  simp only [dias_disponibles, List.mem_filterMap]
  constructor
  · rintro ⟨c, hc, hf⟩
    split at hf
    · exact absurd hf (by simp)
    next hrd =>
      split at hf
      next m htn =>
        split at hf
        next hcond =>
          simp only [Option.some_inj, Dia.mk.injEq] at hf
          obtain ⟨rfl, rfl, rfl⟩ := hf
          simp only [Bool.and_eq_true, decide_eq_true_eq] at hcond
          refine ⟨hc, ?_, htn, hcond.1.1, hcond.1.2, hcond.2, rfl⟩
          simpa using hrd
        next hcond => exact absurd hf (by simp)
      next htn => exact absurd hf (by simp)
  · rintro ⟨hmem, hr, htn, h1, h31, hv, hs⟩
    exact ⟨e, hmem, by simp [hr, htn, h1, h31, hv, hs]⟩

/-- Every entry surviving the dict-based deduplication has a day number not
yet seen, and is the first entry of the incoming list carrying that day
number. -/
theorem dedupFirst_mem_spec :
    ∀ (l : List Dia) (seen : List Nat) (d : Dia),
      d ∈ dedupFirst l seen →
      d.numero ∉ seen
      ∧ (l.filter (fun e => e.numero == d.numero)).head? = some d := by
  intro l
  induction l with
  | nil => intro seen d h; simp [dedupFirst] at h
  | cons d1 rest ih =>
    intro seen d h
    simp only [dedupFirst] at h
    by_cases h1 : d1.numero ∈ seen
    · rw [if_pos h1] at h
      obtain ⟨hns, hh⟩ := ih seen d h
      have hne : (d1.numero == d.numero) = false := by
        rw [beq_eq_false_iff_ne]
        intro he
        exact hns (he ▸ h1)
      refine ⟨hns, ?_⟩
      rw [List.filter_cons_of_neg (by simp [hne]), hh]
    · rw [if_neg h1] at h
      rcases List.mem_cons.mp h with rfl | hmem
      · refine ⟨h1, ?_⟩
        rw [List.filter_cons_of_pos (by simp)]
        rfl
      · obtain ⟨hns, hh⟩ := ih (d1.numero :: seen) d hmem
        have hne : d.numero ≠ d1.numero := fun he => hns (by simp [he])
        have hs2 : d.numero ∉ seen := fun hx => hns (List.mem_cons_of_mem _ hx)
        refine ⟨hs2, ?_⟩
        rw [List.filter_cons_of_neg (by simp; exact fun he => hne he.symm), hh]

/-- The day numbers surviving deduplication are pairwise distinct and none
of them lies in `seen`. -/
theorem dedupFirst_numeros_nodup :
    ∀ (l : List Dia) (seen : List Nat),
      ((dedupFirst l seen).map (fun d => d.numero)).Nodup
      ∧ ∀ n ∈ (dedupFirst l seen).map (fun d => d.numero), n ∉ seen := by
  intro l
  induction l with
  | nil => intro seen; simp [dedupFirst]
  | cons d1 rest ih =>
    intro seen
    simp only [dedupFirst]
    by_cases h1 : d1.numero ∈ seen
    · rw [if_pos h1]
      exact ih seen
    · rw [if_neg h1]
      obtain ⟨hnd, hnotin⟩ := ih (d1.numero :: seen)
      constructor
      · rw [List.map_cons, List.nodup_cons]
        refine ⟨fun hmem => ?_, hnd⟩
        exact (hnotin _ hmem) (List.mem_cons_self _ _)
      · intro n hn
        rcases List.mem_cons.mp hn with rfl | hmem
        · exact h1
        · exact fun hx => (hnotin n hmem) (List.mem_cons_of_mem _ hx)

/-- C9: the scanner's output is strictly ascending in day number — so in
particular no two entries share a day number — and each retained entry is
the first entry of the raw extraction sequence with its day number. -/
theorem obtener_sorted_first_wins (cells : List DayCell) :
    (obtener_dias_disponibles cells).Pairwise (fun a b => a.numero < b.numero)
    ∧ ∀ d ∈ obtener_dias_disponibles cells,
        ((dias_disponibles cells).filter (fun e => e.numero == d.numero)).head?
          = some d := by
  constructor
  · have hsorted : List.Sorted leDia (obtener_dias_disponibles cells) :=
      List.sorted_insertionSort leDia _
    have hperm : List.Perm ((obtener_dias_disponibles cells).map (fun d => d.numero))
        ((dedupFirst (dias_disponibles cells) []).map (fun d => d.numero)) :=
      (List.perm_insertionSort leDia _).map _
    have hnd : ((obtener_dias_disponibles cells).map (fun d => d.numero)).Nodup :=
      hperm.nodup_iff.mpr (dedupFirst_numeros_nodup (dias_disponibles cells) []).1
    have hne : (obtener_dias_disponibles cells).Pairwise (fun a b => a.numero ≠ b.numero) :=
      List.pairwise_map.mp hnd
    exact (List.Pairwise.and hsorted hne).imp (fun h => Nat.lt_of_le_of_ne h.1 h.2)
  · intro d hd
    have hd2 : d ∈ dedupFirst (dias_disponibles cells) [] := by
      rw [obtener_dias_disponibles] at hd
      exact (List.mem_insertionSort leDia).mp hd
    exact (dedupFirst_mem_spec _ [] d hd2).2

/-- C9 witness: the concrete surface `exCells` lists day 12 before two
renderings of day 5; the output is strictly sorted and the entry retained
for day 5 is the first of the two renderings. -/
theorem obtener_sorted_first_wins_witness :
    (obtener_dias_disponibles exCells).Pairwise (fun a b => a.numero < b.numero)
    ∧ ((dias_disponibles exCells).filter (fun e => e.numero == exDia5.numero)).head?
        = some exDia5 := by
  obtain ⟨h1, h2⟩ := obtener_sorted_first_wins exCells
  exact ⟨h1, h2 exDia5 (by decide)⟩

/-- C7 counterexample: with candidates `coca zero` and `pepsi light` and
keywords `coca`, `zero`, `pepsi`, both items are in the match set, but over
the full injected-randomness range the first item is selected twice as
often as the second — the choice is uniform over the keyword-indexed
occurrence list, not over the match set. -/
theorem matched_not_uniform_cex :
    itemCocaZero ∈ items_encontrados cexCandidates cexKeywords
    ∧ itemPepsiLight ∈ items_encontrados cexCandidates cexKeywords
    ∧ itemCocaZero ≠ itemPepsiLight
    ∧ (items_encontrados cexCandidates cexKeywords).length = 3
    ∧ (List.range 3).countP
        (fun r => decide
          (seleccionar cexCandidates cexKeywords r = SelectionOutcome.Matched itemCocaZero)) = 2
    ∧ (List.range 3).countP
        (fun r => decide
          (seleccionar cexCandidates cexKeywords r = SelectionOutcome.Matched itemPepsiLight)) = 1
    := by decide

/-- C7 amended: a `Matched` result always comes from the keyword-match
list, so the chosen item is a visible candidate whose lower-cased
description contains some lower-cased keyword; and as the injected
randomness sweeps the index range once, the selection visits exactly the
keyword-indexed occurrence list — one `Matched` occurrence per (keyword,
candidate) match — so an item's selection weight is its number of matching
keywords, not the uniform weight of the claim. -/
theorem seleccionar_matched_spec (candidates : List MenuItem) (keywords : List String)
    (rand : Nat) (it : MenuItem)
    (h : seleccionar candidates keywords rand = SelectionOutcome.Matched it) :
    it ∈ items_encontrados candidates keywords
    ∧ it ∈ candidates
    ∧ it.visible = true
    ∧ (∃ kw ∈ keywords, matchesKeyword it.descripcion kw = true)
    ∧ (List.range (items_encontrados candidates keywords).length).map
        (fun j => seleccionar candidates keywords j)
        = (items_encontrados candidates keywords).map SelectionOutcome.Matched := by
  cases hL : (items_encontrados candidates keywords).isEmpty with
  | true =>
    exfalso
    simp only [seleccionar, hL, if_true] at h
    cases candidates with
    | nil => exact SelectionOutcome.noConfusion h
    | cons c cs => exact SelectionOutcome.noConfusion h
  | false =>
    have hnil : items_encontrados candidates keywords ≠ [] :=
      List.isEmpty_eq_false.mp hL
    have hlen : 0 < (items_encontrados candidates keywords).length :=
      List.length_pos.mpr hnil
    simp only [seleccionar, hL, Bool.false_eq_true, if_false] at h
    have hit : (items_encontrados candidates keywords).getD
        (rand % (items_encontrados candidates keywords).length) ⟨"", true⟩ = it := by
      injection h
    have hmem : it ∈ items_encontrados candidates keywords := by
      rw [← hit]
      have hlt : rand % (items_encontrados candidates keywords).length
          < (items_encontrados candidates keywords).length := Nat.mod_lt _ hlen
      rw [List.getD_eq_getElem?_getD, List.getElem?_eq_getElem hlt]
      exact List.getElem_mem hlt
    have hdecomp := hmem
    simp only [items_encontrados, List.mem_flatten] at hdecomp
    obtain ⟨sub, hsub, hin⟩ := hdecomp
    obtain ⟨kw, hkw, rfl⟩ := List.mem_map.mp hsub
    obtain ⟨hcand, hcond⟩ := List.mem_filter.mp hin
    rw [Bool.and_eq_true] at hcond
    refine ⟨hmem, hcand, hcond.1, ⟨kw, hkw, hcond.2⟩, ?_⟩
    have hcongr : ∀ j ∈ List.range (items_encontrados candidates keywords).length,
        seleccionar candidates keywords j
          = SelectionOutcome.Matched
              ((items_encontrados candidates keywords).getD j ⟨"", true⟩) := by
      intro j hj
      have hjl : j < (items_encontrados candidates keywords).length := List.mem_range.mp hj
      simp only [seleccionar, hL, Bool.false_eq_true, if_false]
      rw [Nat.mod_eq_of_lt hjl]
    have hcomp : (fun a => SelectionOutcome.Matched
          ((items_encontrados candidates keywords).getD a ⟨"", true⟩))
        = (SelectionOutcome.Matched
            ∘ fun a => (items_encontrados candidates keywords).getD a ⟨"", true⟩) := rfl
    rw [List.map_congr_left hcongr, hcomp, ← List.map_map, map_getD_range]

/-- C7 witness: a single salad candidate matching the salad keyword. -/
theorem seleccionar_matched_spec_witness :
    witSalad ∈ items_encontrados [witSalad] ["ensalada"]
    ∧ witSalad ∈ [witSalad]
    ∧ witSalad.visible = true
    ∧ (∃ kw ∈ ["ensalada"], matchesKeyword witSalad.descripcion kw = true)
    ∧ (List.range (items_encontrados [witSalad] ["ensalada"]).length).map
        (fun j => seleccionar [witSalad] ["ensalada"] j)
        = (items_encontrados [witSalad] ["ensalada"]).map SelectionOutcome.Matched :=
  seleccionar_matched_spec [witSalad] ["ensalada"] 0 witSalad (by decide)
